import Mathlib

/-!
Verification of the EmbeddingServer core against its specification.

The Rust sources are shallowly embedded: byte streams become `List Nat`
(each element a byte value), machine integers become `Nat` with explicit
`% 2^32` where the code truncates, 32-bit floats become real numbers,
fallible code returns `Except`, and the opaque collaborators (tokenizer,
ONNX runtime session, MessagePack serializer) become function parameters.
-/

namespace EmbeddingServer

/-! ## Protocol codec (src/protocol/mod.rs) -/

/-- OVNT protocol magic bytes `[0x4F, 0x56, 0x4E, 0x54]`. -/
def MAGIC_BYTES : List Nat := [0x4F, 0x56, 0x4E, 0x54]

/-- Protocol version byte. -/
def VERSION : Nat := 0x01

/-- Message type byte for data messages. -/
def MSG_TYPE_DATA : Nat := 4

/-- Protocol message envelope: `ProtocolMessage` from src/protocol/mod.rs.
UUIDs are modelled as their raw 16-byte representation. -/
structure ProtocolMessage where
  sender_id : List Nat
  target_id : Option (List Nat)
  message_id : List Nat
  payload : List Nat
deriving DecidableEq, Repr

/-- The four little-endian bytes written by `write_u32_le` for a length that
the Rust code truncates with `as u32`. -/
def u32le (n : Nat) : List Nat :=
  [n % 256, n / 256 % 256, n / 65536 % 256, n / 16777216 % 256]

/-- `ProtocolMessage::write_to_stream`: the exact byte sequence the encoder
emits (magic, version, type, payload length as u32 LE, sender id, target-id
tag and bytes, message id, payload). -/
def write_to_stream (m : ProtocolMessage) : List Nat :=
  MAGIC_BYTES ++ [VERSION] ++ [MSG_TYPE_DATA] ++ u32le m.payload.length ++
    m.sender_id ++
    (match m.target_id with
     | some t => 1 :: t
     | none => [0]) ++
    m.message_id ++ m.payload

/-- Decoder errors of `read_from_stream`: a failed `read_exact`/`read_u8`
(end of stream) is an `UnexpectedEof` I/O error; bad magic and bad version
are distinct `InvalidData` errors. -/
inductive ReadError where
  | eof
  | invalidMagic (magic : List Nat)
  | unsupportedVersion (v : Nat)
deriving DecidableEq, Repr

/-- Structural decidable equality for `Except`, used to evaluate the codec
and handler on concrete inputs. -/
instance {ε α : Type} [DecidableEq ε] [DecidableEq α] : DecidableEq (Except ε α) := fun a b =>
  match a, b with
  | .error x, .error y =>
    if h : x = y then .isTrue (by rw [h]) else
      .isFalse (fun hc => h (by cases hc; rfl))
  | .error _, .ok _ => .isFalse (fun hc => Except.noConfusion hc)
  | .ok _, .error _ => .isFalse (fun hc => Except.noConfusion hc)
  | .ok x, .ok y =>
    if h : x = y then .isTrue (by rw [h]) else
      .isFalse (fun hc => h (by cases hc; rfl))

/-- `read_u8`: one byte off the stream, or end-of-stream. -/
def readU8 : List Nat → Option (Nat × List Nat)
  | [] => none
  | b :: rest => some (b, rest)

/-- `read_exact` into an `n`-byte buffer: the next `n` bytes, or
end-of-stream when fewer are available. -/
def readExact (n : Nat) (s : List Nat) : Option (List Nat × List Nat) :=
  if n ≤ s.length then some (s.take n, s.drop n) else none

/-- `read_u32_le`: four bytes, combined little-endian. -/
def readU32le (s : List Nat) : Option (Nat × List Nat) :=
  match s with
  | b0 :: b1 :: b2 :: b3 :: rest =>
      some (b0 + 256 * b1 + 65536 * b2 + 16777216 * b3, rest)
  | _ => none

/-- `ProtocolMessage::read_from_stream`: parse one framed message off the
stream (returning the remaining bytes as well).  The message-type byte is
read and ignored, exactly as in the source (`_msg_type`). -/
def read_from_stream (s : List Nat) : Except ReadError (ProtocolMessage × List Nat) :=
  match readExact 4 s with
  | none => .error .eof
  | some (magic, s1) =>
    if magic = MAGIC_BYTES then
      match readU8 s1 with
      | none => .error .eof
      | some (version, s2) =>
        if version = VERSION then
          match readU8 s2 with
          | none => .error .eof
          | some (_msgType, s3) =>
            match readU32le s3 with
            | none => .error .eof
            | some (length, s4) =>
              match readExact 16 s4 with
              | none => .error .eof
              | some (senderBytes, s5) =>
                match readU8 s5 with
                | none => .error .eof
                | some (targetTag, s6) =>
                  match
                    (if targetTag = 1 then
                       (readExact 16 s6).map (fun p => (some p.1, p.2))
                     else some (none, s6) :
                      Option (Option (List Nat) × List Nat)) with
                  | none => .error .eof
                  | some (targetId, s7) =>
                    match readExact 16 s7 with
                    | none => .error .eof
                    | some (messageBytes, s8) =>
                      match readExact length s8 with
                      | none => .error .eof
                      | some (payload, s9) =>
                        .ok (⟨senderBytes, targetId, messageBytes, payload⟩, s9)
        else .error (.unsupportedVersion version)
    else .error (.invalidMagic magic)

/-- A message is well-formed when its ids are raw 16-byte UUIDs, as the Rust
types (`Uuid`, `[u8; 16]`) guarantee. -/
def wfMessage (m : ProtocolMessage) : Prop :=
  m.sender_id.length = 16 ∧
  (∀ t, m.target_id = some t → t.length = 16) ∧
  m.message_id.length = 16

theorem readExact_append (n : Nat) (xs rest : List Nat) (h : xs.length = n) :
    readExact n (xs ++ rest) = some (xs, rest) := by
  subst h
  simp [readExact, List.take_left, List.drop_left]

theorem readU32le_u32le (n : Nat) (rest : List Nat) :
    readU32le (u32le n ++ rest) = some (n % 4294967296, rest) := by
  simp only [u32le, List.cons_append, List.nil_append, readU32le]
  congr 1
  congr 1
  omega

/-- What decoding an encoded message actually yields: the ids round-trip
exactly, while the payload is cut off at its length modulo `2^32` (the
`as u32` cast in `write_to_stream`), the remainder staying on the stream. -/
theorem read_write_general (m : ProtocolMessage) (rest : List Nat)
    (hwf : wfMessage m) :
    read_from_stream (write_to_stream m ++ rest) =
      .ok ({ m with payload := m.payload.take (m.payload.length % 4294967296) },
           m.payload.drop (m.payload.length % 4294967296) ++ rest) := by
  obtain ⟨sid, tid, mid, pl⟩ := m
  obtain ⟨hs, ht, hm⟩ := hwf
  simp only at hs hm
  have hle : pl.length % 4294967296 ≤ (pl ++ rest).length := by
    have := Nat.mod_le pl.length 4294967296
    simp only [List.length_append]
    omega
  cases tid with
  | none =>
    unfold write_to_stream read_from_stream
    simp only [List.append_assoc, List.cons_append, List.nil_append]
    rw [readExact_append 4 MAGIC_BYTES _ (by decide)]
    dsimp only
    rw [if_pos rfl]
    simp only [List.singleton_append, readU8, if_true]
    rw [readU32le_u32le]
    dsimp only
    rw [readExact_append 16 sid _ hs]
    dsimp only
    rw [if_neg (by decide)]
    dsimp only
    rw [readExact_append 16 mid _ hm]
    dsimp only
    simp only [readExact, if_pos hle,
      List.take_append_of_le_length (Nat.mod_le _ _),
      List.drop_append_of_le_length (Nat.mod_le _ _)]
  | some t =>
    have htl : t.length = 16 := ht t rfl
    unfold write_to_stream read_from_stream
    simp only [List.append_assoc, List.cons_append, List.nil_append]
    rw [readExact_append 4 MAGIC_BYTES _ (by decide)]
    dsimp only
    rw [if_pos rfl]
    simp only [List.singleton_append, readU8, if_true]
    rw [readU32le_u32le]
    dsimp only
    rw [readExact_append 16 sid _ hs]
    dsimp only
    rw [if_pos rfl]
    rw [readExact_append 16 t _ htl]
    simp only [Option.map_some']
    rw [readExact_append 16 mid _ hm]
    dsimp only
    simp only [readExact, if_pos hle,
      List.take_append_of_le_length (Nat.mod_le _ _),
      List.drop_append_of_le_length (Nat.mod_le _ _)]

/-- A message whose payload holds exactly `2^32` bytes: its length survives
`write_to_stream`'s `as u32` cast only modulo `2^32`. -/
def bigMsg : ProtocolMessage :=
  ⟨List.replicate 16 0, none, List.replicate 16 0, List.replicate 4294967296 0⟩

/-- Claim C2 counterexample: for the message with a `2^32`-byte payload,
decoding the encoded bytes yields a message with an empty payload (the
declared length wrapped to 0), not the original message: the round-trip
fails for this concrete input. -/
theorem C2_counterexample :
    read_from_stream (write_to_stream bigMsg) =
      .ok ({ bigMsg with payload := [] }, List.replicate 4294967296 0) ∧
    ({ bigMsg with payload := [] } : ProtocolMessage) ≠ bigMsg := by
  have hpl : bigMsg.payload.length = 4294967296 := by
    rw [show bigMsg.payload = List.replicate 4294967296 0 from rfl,
      List.length_replicate]
  constructor
  · have hwf : wfMessage bigMsg := by
      refine ⟨by decide, ?_, by decide⟩
      intro t ht
      exact nomatch (show (none : Option (List Nat)) = some t from ht)
    have h := read_write_general bigMsg [] hwf
    rw [hpl, Nat.mod_self, List.take_zero, List.drop_zero] at h
    simp only [List.append_nil] at h
    rw [show List.replicate 4294967296 0 = bigMsg.payload from rfl]
    exact h
  · intro hEq
    have hp : (0 : Nat) = bigMsg.payload.length :=
      congrArg (fun m => m.payload.length) hEq
    rw [hpl] at hp
    exact absurd hp (by omega)

/-- Claim C2 (amended): for every well-formed ProtocolMessage whose payload
is shorter than `2^32` bytes, decoding the bytes produced by encoding it
yields the message again exactly (sender id, target-id presence/value,
message id, payload preserved), with nothing consumed beyond the message. -/
theorem C2_roundtrip (m : ProtocolMessage) (rest : List Nat) (hwf : wfMessage m)
    (hlen : m.payload.length < 4294967296) :
    read_from_stream (write_to_stream m ++ rest) = .ok (m, rest) := by
  have h := read_write_general m rest hwf
  rw [Nat.mod_eq_of_lt hlen, List.take_length, List.drop_length,
    List.nil_append] at h
  exact h

/-- A small concrete message exercising every field of the envelope. -/
def smallMsg : ProtocolMessage :=
  ⟨List.replicate 16 3, some (List.replicate 16 5), List.replicate 16 7, [1, 2, 3]⟩

/-- Witness for C2: the round-trip theorem applied to a concrete message. -/
theorem C2_roundtrip_witness :
    wfMessage smallMsg ∧ smallMsg.payload.length < 4294967296 ∧
    read_from_stream (write_to_stream smallMsg ++ []) = .ok (smallMsg, []) := by
  have hwf : wfMessage smallMsg :=
    ⟨by decide, fun t ht => by simp only [smallMsg, Option.some.injEq] at ht; subst ht; decide,
     by decide⟩
  exact ⟨hwf, by decide, C2_roundtrip smallMsg [] hwf (by decide)⟩

/-! ## Error type (src/models/mod.rs) -/

/-- `EmbeddingError` from src/models/mod.rs, one constructor per variant,
carrying the same fields (error payloads as strings). -/
inductive EmbeddingError where
  | ConfigError (message : String)
  | ModelNotFound (model_name : String)
  | ModelLoadError (model_name : String) (error : String)
  | ModelLoadFailed (error : String)
  | InferenceError (model_name : String) (error : String)
  | EmbeddingFailed (error : String)
  | InvalidInput (message : String)
  | IoError (error : String)
  | TomlError (error : String)
deriving DecidableEq, Repr

/-! ## Inference engine (src/onnx/onnx_engine.rs)

32-bit floats are modelled as real numbers.  The ONNX runtime session and
the tokenizer are the spec's opaque collaborators and appear as function
parameters. -/

/-- A tensor as extracted from the runtime output: its shape and an entry
function (indexing past the shape is never exercised by the code paths
modelled here). -/
structure TensorF where
  shape : List Nat
  entry : Nat → Nat → Nat → ℝ

/-- `OnnxEmbeddingEngine::mean_pooling`: mean over the sequence axis of the
positions whose attention-mask value is 1, after checking the tensor is
rank 3 and the mask length matches the sequence length. -/
noncomputable def mean_pooling (output_tensor : TensorF) (attention_mask : List Nat) :
    Except EmbeddingError (List ℝ) :=
  match output_tensor.shape with
  | [_batch, seqLen, hiddenSize] =>
    if attention_mask.length ≠ seqLen then
      .error (.EmbeddingFailed "Attention mask length does not match sequence length")
    else
      let validIdx := (List.range seqLen).filter (fun i => attention_mask.getD i 0 == 1)
      if validIdx.length = 0 then
        .error (.EmbeddingFailed "No valid tokens found in attention mask")
      else
        .ok ((List.range hiddenSize).map (fun h =>
          ((validIdx.map (fun i => output_tensor.entry 0 i h)).sum / (validIdx.length : ℝ))))
  | other =>
    .error (.EmbeddingFailed ("Expected 3D output tensor, got " ++ toString other.length ++ "D"))

/-- The L2 norm the code computes: `iter().map(|x| x * x).sum().sqrt()`. -/
noncomputable def l2norm (embedding : List ℝ) : ℝ :=
  Real.sqrt ((embedding.map (fun x => x * x)).sum)

/-- `OnnxEmbeddingEngine::normalize_embedding`: divide by the L2 norm,
failing when the norm is exactly zero. -/
noncomputable def normalize_embedding (embedding : List ℝ) :
    Except EmbeddingError (List ℝ) :=
  let norm := l2norm embedding
  if norm = 0 then
    .error (.EmbeddingFailed "Cannot normalize zero vector")
  else
    .ok (embedding.map (fun x => x / norm))

/-- The per-text body of the `embed_texts` loop: tokenize, build the three
equal-length integer sequences, run the session, mean-pool, normalize. -/
noncomputable def embed_one
    (tokenize : String → Except String (List Nat × List Nat))
    (run : List Int → List Int → List Int → Except String TensorF)
    (text : String) : Except EmbeddingError (List ℝ) :=
  match tokenize text with
  | .error e => .error (.EmbeddingFailed ("Tokenization failed: " ++ e))
  | .ok (input_ids, attention_mask) =>
    let input_ids_vec : List Int := input_ids.map Int.ofNat
    let attention_mask_vec : List Int := attention_mask.map Int.ofNat
    let token_type_ids_vec : List Int := List.replicate input_ids_vec.length 0
    match run input_ids_vec attention_mask_vec token_type_ids_vec with
    | .error e => .error (.EmbeddingFailed ("ONNX inference failed: " ++ e))
    | .ok outputs =>
      match mean_pooling outputs attention_mask with
      | .error e => .error e
      | .ok embedding => normalize_embedding embedding

/-- The `for text in &texts` loop of `embed_texts`: embeddings pushed in
input order, aborting at the first failure. -/
noncomputable def embed_texts_loop
    (tokenize : String → Except String (List Nat × List Nat))
    (run : List Int → List Int → List Int → Except String TensorF) :
    List String → Except EmbeddingError (List (List ℝ))
  | [] => .ok []
  | text :: rest =>
    match embed_one tokenize run text with
    | .error e => .error e
    | .ok emb =>
      match embed_texts_loop tokenize run rest with
      | .error e => .error e
      | .ok embs => .ok (emb :: embs)

/-- `OnnxEmbeddingEngine::embed_texts`: reject the empty batch, then run the
per-text loop. -/
noncomputable def embed_texts
    (tokenize : String → Except String (List Nat × List Nat))
    (run : List Int → List Int → List Int → Except String TensorF)
    (texts : List String) : Except EmbeddingError (List (List ℝ)) :=
  if texts.isEmpty then
    .error (.InvalidInput "Cannot embed empty text list")
  else
    embed_texts_loop tokenize run texts

theorem sumSq_nonneg (v : List ℝ) : 0 ≤ (v.map (fun x => x * x)).sum := by
  apply List.sum_nonneg
  intro y hy
  obtain ⟨x, _, rfl⟩ := List.mem_map.1 hy
  exact mul_self_nonneg x

theorem normalize_embedding_ok (v w : List ℝ)
    (h : normalize_embedding v = .ok w) :
    w.length = v.length ∧ l2norm w = 1 := by
  unfold normalize_embedding at h
  by_cases hn : l2norm v = 0
  · rw [if_pos hn] at h
    exact absurd h (by simp)
  · rw [if_neg hn] at h
    have hw : w = v.map (fun x => x / l2norm v) := by
      cases h
      rfl
    subst hw
    refine ⟨by simp, ?_⟩
    have hS : 0 ≤ (v.map (fun x => x * x)).sum := sumSq_nonneg v
    have hSne : (v.map (fun x => x * x)).sum ≠ 0 := by
      intro h0
      rw [l2norm, h0, Real.sqrt_zero] at hn
      exact hn rfl
    have hmul : l2norm v * l2norm v = (v.map (fun x => x * x)).sum :=
      Real.mul_self_sqrt hS
    obtain ⟨n, hn_def⟩ : ∃ n, l2norm v = n := ⟨_, rfl⟩
    rw [hn_def] at hmul
    rw [hn_def]
    unfold l2norm
    rw [List.map_map]
    have hcomp :
        ((fun x => x * x) ∘ fun x => x / n) =
          fun x => (x * x) * (n * n)⁻¹ := by
      funext x
      simp only [Function.comp_apply]
      ring
    rw [hcomp, List.sum_map_mul_right, hmul, mul_inv_cancel₀ hSne, Real.sqrt_one]

theorem mean_pooling_ok_length (t : TensorF) (mask : List Nat)
    (b s h : Nat) (hshape : t.shape = [b, s, h]) (v : List ℝ)
    (hok : mean_pooling t mask = .ok v) : v.length = h := by
  unfold mean_pooling at hok
  rw [hshape] at hok
  dsimp only at hok
  by_cases hm : mask.length ≠ s
  · rw [if_pos hm] at hok
    exact absurd hok (by simp)
  · rw [if_neg hm] at hok
    by_cases hv : ((List.range s).filter (fun i => mask.getD i 0 == 1)).length = 0
    · rw [if_pos hv] at hok
      exact absurd hok (by simp)
    · rw [if_neg hv] at hok
      cases hok
      simp

/-- Claim C5: mean pooling over an attention mask with zero valid (value 1)
positions fails with the "no valid tokens" error rather than dividing by
zero, and L2 normalization of a vector whose norm is exactly zero fails
with the "cannot normalize zero vector" error; neither returns a vector. -/
theorem C5_degenerate_failures :
    (∀ (t : TensorF) (mask : List Nat) (b s h : Nat),
        t.shape = [b, s, h] → mask.length = s → (∀ x ∈ mask, x ≠ 1) →
        mean_pooling t mask =
          .error (.EmbeddingFailed "No valid tokens found in attention mask")) ∧
    (∀ v : List ℝ, l2norm v = 0 →
        normalize_embedding v =
          .error (.EmbeddingFailed "Cannot normalize zero vector")) := by
  constructor
  · intro t mask b s h hshape hlen hmask
    unfold mean_pooling
    rw [hshape]
    dsimp only
    rw [if_neg (show ¬mask.length ≠ s by omega)]
    have hfil : (List.range s).filter (fun i => mask.getD i 0 == 1) = [] := by
      rw [List.filter_eq_nil_iff]
      intro i hi
      rw [List.mem_range] at hi
      have hval : mask.getD i 0 ∈ mask := by
        rw [List.getD_eq_getElem?_getD]
        rw [List.getElem?_eq_getElem (by omega)]
        exact List.getElem_mem _
      simp only [beq_iff_eq]
      exact hmask _ hval
    rw [if_pos (by rw [hfil]; rfl)]
  · intro v hv
    unfold normalize_embedding
    rw [if_pos hv]

/-- Witness for C5: a rank-3 tensor with an all-zero one-position mask, and
the zero vector. -/
theorem C5_degenerate_failures_witness :
    mean_pooling ⟨[1, 1, 1], fun _ _ _ => 0⟩ [0] =
      .error (.EmbeddingFailed "No valid tokens found in attention mask") ∧
    normalize_embedding [0] =
      .error (.EmbeddingFailed "Cannot normalize zero vector") := by
  constructor
  · exact C5_degenerate_failures.1 ⟨[1, 1, 1], fun _ _ _ => 0⟩ [0] 1 1 1 rfl rfl
      (by decide)
  · exact C5_degenerate_failures.2 [0]
      (by simp [l2norm])

theorem embed_texts_loop_ok
    (tokenize : String → Except String (List Nat × List Nat))
    (run : List Int → List Int → List Int → Except String TensorF)
    (texts : List String) (es : List (List ℝ))
    (hok : embed_texts_loop tokenize run texts = .ok es) :
    es.length = texts.length ∧
    ∀ (i : Nat) (tx : String), texts[i]? = some tx →
      ∃ e, es[i]? = some e ∧ embed_one tokenize run tx = .ok e := by
  induction texts generalizing es with
  | nil =>
    unfold embed_texts_loop at hok
    cases hok
    exact ⟨rfl, by intro i tx h; simp at h⟩
  | cons t ts ih =>
    unfold embed_texts_loop at hok
    cases h1 : embed_one tokenize run t with
    | error e => rw [h1] at hok; exact absurd hok (by simp)
    | ok emb =>
      rw [h1] at hok
      cases h2 : embed_texts_loop tokenize run ts with
      | error e => rw [h2] at hok; exact absurd hok (by simp)
      | ok embs =>
        rw [h2] at hok
        cases hok
        obtain ⟨ihl, ihp⟩ := ih embs h2
        refine ⟨by simp [ihl], ?_⟩
        intro i tx htx
        cases i with
        | zero =>
          simp only [List.getElem?_cons_zero, Option.some.injEq] at htx
          subst htx
          exact ⟨emb, by simp, h1⟩
        | succ j =>
          simp only [List.getElem?_cons_succ] at htx ⊢
          exact ihp j tx htx

/-- Claim C4: `embed_texts` on the empty list fails with InvalidInput; on a
non-empty list, success yields exactly one embedding per input text in the
same order, the i-th output being the embedding of the i-th input. -/
theorem C4_embed_texts_order
    (tokenize : String → Except String (List Nat × List Nat))
    (run : List Int → List Int → List Int → Except String TensorF) :
    embed_texts tokenize run [] =
      .error (.InvalidInput "Cannot embed empty text list") ∧
    ∀ texts es, embed_texts tokenize run texts = .ok es →
      es.length = texts.length ∧
      ∀ (i : Nat) (tx : String), texts[i]? = some tx →
        ∃ e, es[i]? = some e ∧ embed_one tokenize run tx = .ok e := by
  constructor
  · rfl
  · intro texts es hok
    unfold embed_texts at hok
    by_cases he : texts.isEmpty
    · rw [if_pos he] at hok
      exact absurd hok (by simp)
    · rw [if_neg he] at hok
      exact embed_texts_loop_ok tokenize run texts es hok

theorem embed_one_ok_norm
    (tokenize : String → Except String (List Nat × List Nat))
    (run : List Int → List Int → List Int → Except String TensorF)
    (dim : Nat)
    (hrun : ∀ a b c t, run a b c = .ok t → ∃ nb ns, t.shape = [nb, ns, dim])
    (tx : String) (e : List ℝ) (hok : embed_one tokenize run tx = .ok e) :
    e.length = dim ∧ l2norm e = 1 := by
  unfold embed_one at hok
  cases htk : tokenize tx with
  | error err => rw [htk] at hok; exact absurd hok (by simp)
  | ok p =>
    rw [htk] at hok
    obtain ⟨ids, mask⟩ := p
    dsimp only at hok
    cases hr : run (ids.map Int.ofNat) (mask.map Int.ofNat)
        (List.replicate (ids.map Int.ofNat).length 0) with
    | error err => rw [hr] at hok; exact absurd hok (by simp)
    | ok outputs =>
      rw [hr] at hok
      dsimp only at hok
      obtain ⟨nb, ns, hshape⟩ := hrun _ _ _ _ hr
      cases hmp : mean_pooling outputs mask with
      | error err => rw [hmp] at hok; exact absurd hok (by simp)
      | ok emb =>
        rw [hmp] at hok
        dsimp only at hok
        have hlen := mean_pooling_ok_length outputs mask nb ns dim hshape emb hmp
        obtain ⟨hlen2, hnorm⟩ := normalize_embedding_ok emb e hok
        exact ⟨hlen2.trans hlen, hnorm⟩

/-- Claim C1: for every batch of valid texts (each at most 8192 bytes), when
the loaded model's runtime emits rank-3 tensors whose hidden size equals the
model's declared embedding dimension, every embedding returned by
`embed_texts` has length equal to that dimension and L2 norm exactly 1
(hence within the 1e-5 tolerance). -/
theorem C1_embed_dimension_norm
    (tokenize : String → Except String (List Nat × List Nat))
    (run : List Int → List Int → List Int → Except String TensorF)
    (dim : Nat)
    (hrun : ∀ a b c t, run a b c = .ok t → ∃ nb ns, t.shape = [nb, ns, dim])
    (texts : List String) (hvalid : ∀ tx ∈ texts, tx.utf8ByteSize ≤ 8192)
    (es : List (List ℝ)) (hok : embed_texts tokenize run texts = .ok es) :
    ∀ e ∈ es, e.length = dim ∧ l2norm e = 1 ∧ |l2norm e - 1| ≤ 1 / 100000 := by
  intro e he
  unfold embed_texts at hok
  by_cases hemp : texts.isEmpty
  · rw [if_pos hemp] at hok
    exact absurd hok (by simp)
  · rw [if_neg hemp] at hok
    obtain ⟨hlen, hpt⟩ := embed_texts_loop_ok tokenize run texts es hok
    obtain ⟨i, hi⟩ := List.mem_iff_getElem?.1 he
    have hilt : i < texts.length := by
      rw [← hlen]
      exact (List.getElem?_eq_some_iff.1 hi).1
    have htx : texts[i]? = some texts[i] :=
      List.getElem?_eq_some_iff.2 ⟨hilt, rfl⟩
    obtain ⟨e', he', heo⟩ := hpt i texts[i] htx
    rw [hi] at he'
    cases he'
    obtain ⟨h1, h2⟩ := embed_one_ok_norm tokenize run dim hrun texts[i] e heo
    exact ⟨h1, h2, by rw [h2]; norm_num⟩

/-- A concrete tokenizer stub: every text becomes one token with mask 1. -/
def tok1 : String → Except String (List Nat × List Nat) :=
  fun _ => .ok ([101], [1])

/-- A concrete runtime stub: a constant rank-3 `[1, 1, 1]` tensor. -/
def run1 : List Int → List Int → List Int → Except String TensorF :=
  fun _ _ _ => .ok ⟨[1, 1, 1], fun _ _ _ => 1⟩

theorem mean_pooling_run1 :
    mean_pooling ⟨[1, 1, 1], fun _ _ _ => (1 : ℝ)⟩ [1] = .ok [1] := by
  unfold mean_pooling
  dsimp only
  rw [if_neg (by decide)]
  rw [show (List.range 1).filter (fun i => ([1] : List Nat).getD i 0 == 1) = [0]
    from by decide]
  rw [if_neg (by decide)]
  rw [show List.range 1 = [0] from rfl]
  norm_num

theorem l2norm_one : l2norm [(1 : ℝ)] = 1 := by
  simp [l2norm]

theorem normalize_embedding_one : normalize_embedding [(1 : ℝ)] = .ok [1] := by
  unfold normalize_embedding
  rw [if_neg (by rw [l2norm_one]; norm_num)]
  rw [l2norm_one]
  norm_num

theorem embed_one_tok1_run1 : embed_one tok1 run1 "a" = .ok [1] := by
  unfold embed_one
  rw [show tok1 "a" = .ok ([101], [1]) from rfl]
  dsimp only
  rw [show run1 ([101].map Int.ofNat) ([1].map Int.ofNat)
      (List.replicate ([101].map Int.ofNat).length 0) =
    .ok ⟨[1, 1, 1], fun _ _ _ => 1⟩ from rfl]
  dsimp only
  rw [mean_pooling_run1]
  exact normalize_embedding_one

theorem embed_texts_tok1_run1 : embed_texts tok1 run1 ["a"] = .ok [[1]] := by
  unfold embed_texts embed_texts_loop
  rw [if_neg (by decide)]
  rw [embed_one_tok1_run1]
  simp [embed_texts_loop]

/-- Witness for C1: the theorem applied to the stub tokenizer and runtime on
one concrete text. -/
theorem C1_embed_dimension_norm_witness :
    embed_texts tok1 run1 ["a"] = .ok [[1]] ∧
    [(1 : ℝ)].length = 1 ∧ l2norm [(1 : ℝ)] = 1 ∧
    |l2norm [(1 : ℝ)] - 1| ≤ 1 / 100000 := by
  refine ⟨embed_texts_tok1_run1, ?_⟩
  refine C1_embed_dimension_norm tok1 run1 1 ?_ ["a"] ?_ [[1]]
    embed_texts_tok1_run1 [(1 : ℝ)] (by simp)
  · intro a b c t ht
    refine ⟨1, 1, ?_⟩
    cases ht
    rfl
  · intro tx htx
    rw [List.mem_singleton] at htx
    subst htx
    decide

/-- Witness for C4: the theorem applied to the stub tokenizer and runtime on
the empty batch and on one concrete text. -/
theorem C4_embed_texts_order_witness :
    embed_texts tok1 run1 [] =
      .error (.InvalidInput "Cannot embed empty text list") ∧
    [[(1 : ℝ)]].length = ["a"].length ∧
    ∃ e, [[(1 : ℝ)]][0]? = some e ∧ embed_one tok1 run1 "a" = .ok e := by
  have h := C4_embed_texts_order tok1 run1
  have h2 := h.2 ["a"] [[1]] embed_texts_tok1_run1
  exact ⟨h.1, h2.1, h2.2 0 "a" rfl⟩

/-! ## Connection handler (src/server/server.rs) -/

/-- `EmbedRequest` from src/protocol/mod.rs. -/
structure EmbedRequest where
  text : String
  model : Option String
deriving DecidableEq, Repr

/-- The observable outcome of one iteration of the `handle_connection`
loop: the loop breaks (connection closes) on clean EOF or on any framing
error, sends an error reply and continues on payload-deserialization
failure, and sends exactly one response (success or embedding error) and
continues on a valid request. -/
inductive HandlerStep where
  | closedClean
  | closedProtoError (e : ReadError)
  | errorReply (reply : ProtocolMessage)
  | response (reply : ProtocolMessage)
deriving DecidableEq, Repr

/-- One iteration of `EmbeddingServer::handle_connection` on the bytes
currently on the stream.  `deser` is `deserialize_request` (MessagePack,
opaque), `ser_err`/`ser_resp` are `serialize_error`/`serialize_response`
(opaque), `debug_fmt` is the `{:?}` rendering of an embedding error, and
`new_message_id` is the fresh UUID `ProtocolMessage::new` generates. -/
def handle_message
    (server_id new_message_id : List Nat)
    (deser : List Nat → Except String EmbedRequest)
    (embed_text_with_model : String → String → Except EmbeddingError (List ℝ))
    (embed_text : String → Except EmbeddingError (List ℝ))
    (ser_err : String → List Nat) (ser_resp : List ℝ → List Nat)
    (debug_fmt : EmbeddingError → String)
    (input : List Nat) : HandlerStep :=
  match read_from_stream input with
  | .error .eof => .closedClean
  | .error e => .closedProtoError e
  | .ok (request_msg, _) =>
    match deser request_msg.payload with
    | .error e =>
      .errorReply ⟨server_id, some request_msg.sender_id, new_message_id,
        ser_err ("Invalid request format: " ++ e)⟩
    | .ok embed_request =>
      let embedding_result :=
        match embed_request.model with
        | some model_name => embed_text_with_model embed_request.text model_name
        | none => embed_text embed_request.text
      let response_payload :=
        match embedding_result with
        | .ok embedding => ser_resp embedding
        | .error e => ser_err ("Embedding failed: " ++ debug_fmt e)
      .response ⟨server_id, some request_msg.sender_id, new_message_id,
        response_payload⟩

/-- Concrete stubs used to instantiate the handler at closed inputs. -/
def deser0 : List Nat → Except String EmbedRequest := fun _ => .error "bad"

def embedWith0 : String → String → Except EmbeddingError (List ℝ) :=
  fun _ _ => .error (.InvalidInput "none")

def embedDef0 : String → Except EmbeddingError (List ℝ) :=
  fun _ => .error (.InvalidInput "none")

def serErr0 : String → List Nat := fun _ => [7]

def serResp0 : List ℝ → List Nat := fun _ => [8]

def debugFmt0 : EmbeddingError → String := fun _ => "err"

/-- Claim C3 counterexample: on a framing-layer decode failure (bad magic
bytes) the handler closes the connection without sending any error
message, contradicting "a protocol decode error never closes the
connection". -/
theorem C3_counterexample :
    handle_message (List.replicate 16 2) (List.replicate 16 4) deser0
      embedWith0 embedDef0 serErr0 serResp0 debugFmt0 [0, 0, 0, 0] =
      .closedProtoError (.invalidMagic [0, 0, 0, 0]) := by
  decide

/-- Claim C3 (amended): only a payload-deserialization failure produces an
error reply — targeted at the request's sender id — after which the handler
continues on the same connection; a framing-layer decode error (bad magic,
bad version, truncated frame) closes the connection without a reply, and a
clean end-of-stream closes it silently. -/
theorem C3_decode_error_behavior
    (server_id new_message_id : List Nat)
    (deser : List Nat → Except String EmbedRequest)
    (embed_text_with_model : String → String → Except EmbeddingError (List ℝ))
    (embed_text : String → Except EmbeddingError (List ℝ))
    (ser_err : String → List Nat) (ser_resp : List ℝ → List Nat)
    (debug_fmt : EmbeddingError → String)
    (input : List Nat) :
    (∀ msg rest e, read_from_stream input = .ok (msg, rest) →
        deser msg.payload = .error e →
        handle_message server_id new_message_id deser embed_text_with_model
            embed_text ser_err ser_resp debug_fmt input =
          .errorReply ⟨server_id, some msg.sender_id, new_message_id,
            ser_err ("Invalid request format: " ++ e)⟩) ∧
    (∀ e, read_from_stream input = .error e → e ≠ .eof →
        handle_message server_id new_message_id deser embed_text_with_model
            embed_text ser_err ser_resp debug_fmt input =
          .closedProtoError e) ∧
    (read_from_stream input = .error .eof →
        handle_message server_id new_message_id deser embed_text_with_model
            embed_text ser_err ser_resp debug_fmt input = .closedClean) := by
  refine ⟨?_, ?_, ?_⟩
  · intro msg rest e hread hdeser
    unfold handle_message
    rw [hread]
    dsimp only
    rw [hdeser]
  · intro e hread hne
    unfold handle_message
    rw [hread]
    cases e with
    | eof => exact absurd rfl hne
    | invalidMagic m => rfl
    | unsupportedVersion v => rfl
  · intro hread
    unfold handle_message
    rw [hread]

/-- Witness for C3 (amended): a well-framed message whose payload the
deserializer rejects yields an error reply that targets the sender id;
a bad-magic stream yields a silent close; an empty stream closes cleanly. -/
theorem C3_decode_error_behavior_witness :
    handle_message (List.replicate 16 2) (List.replicate 16 4) deser0
        embedWith0 embedDef0 serErr0 serResp0 debugFmt0
        (write_to_stream smallMsg) =
      .errorReply ⟨List.replicate 16 2, some smallMsg.sender_id,
        List.replicate 16 4, serErr0 ("Invalid request format: " ++ "bad")⟩ ∧
    handle_message (List.replicate 16 2) (List.replicate 16 4) deser0
        embedWith0 embedDef0 serErr0 serResp0 debugFmt0 [0, 0, 0, 1] =
      .closedProtoError (.invalidMagic [0, 0, 0, 1]) ∧
    handle_message (List.replicate 16 2) (List.replicate 16 4) deser0
        embedWith0 embedDef0 serErr0 serResp0 debugFmt0 [] = .closedClean := by
  have h := C3_decode_error_behavior (List.replicate 16 2) (List.replicate 16 4)
    deser0 embedWith0 embedDef0 serErr0 serResp0 debugFmt0
  refine ⟨?_, ?_, ?_⟩
  · exact (h (write_to_stream smallMsg)).1 smallMsg [] "bad" (by decide) rfl
  · exact (h [0, 0, 0, 1]).2.1 (.invalidMagic [0, 0, 0, 1]) (by decide) (by decide)
  · exact (h []).2.2 (by decide)

/-! ## Model registry (src/models/registry.rs)

The two `RwLock<HashMap<..>>` maps become two finite partial maps (as
functions `String → Option _`); the loaded-model and model-info value types
stay abstract.  `ModelFactory::create_model` composed with
`EmbeddingModel::initialize` and `info()` appears as the `init` parameter. -/

/-- `ModelConfig` from src/models/config.rs. -/
structure ModelConfig where
  name : String
  description : String
  version : String
  enabled : Bool
  model_path : String
  tokenizer_path : String
  config_path : String
  max_sequence_length : Nat
  embedding_dimension : Nat
  pooling_mode : String
  batch_size : Nat
  use_gpu : Bool
  num_threads : Nat
  onnx_runtime_path : String
  execution_provider : String
deriving DecidableEq, Repr

/-- The registry's state: the `models` map and the `model_infos` cache. -/
structure RegistryState (Model MInfo : Type) where
  models : String → Option Model
  model_infos : String → Option MInfo

/-- The freshly-created (and the fully shut down) registry. -/
def RegistryState.empty {Model MInfo : Type} : RegistryState Model MInfo :=
  ⟨fun _ => none, fun _ => none⟩

/-- `ModelRegistry::load_model`: initialize fully, then publish under
`config.name` into both maps; on failure nothing is inserted. -/
def load_model {Model MInfo : Type}
    (init : ModelConfig → Except EmbeddingError (Model × MInfo))
    (st : RegistryState Model MInfo) (config : ModelConfig) :
    Except EmbeddingError Unit × RegistryState Model MInfo :=
  match init config with
  | .error e => (.error e, st)
  | .ok (model, info) =>
    (.ok (),
     { models := fun n => if n = config.name then some model else st.models n,
       model_infos := fun n => if n = config.name then some info else st.model_infos n })

/-- `ModelRegistry::get_model`. -/
def get_model {Model MInfo : Type} (st : RegistryState Model MInfo)
    (name : String) : Option Model :=
  st.models name

/-- `ModelRegistry::get_model_info`. -/
def get_model_info {Model MInfo : Type} (st : RegistryState Model MInfo)
    (name : String) : Option MInfo :=
  st.model_infos name

/-- `ModelRegistry::is_model_loaded`: `contains_key` on the models map. -/
def is_model_loaded {Model MInfo : Type} (st : RegistryState Model MInfo)
    (name : String) : Bool :=
  (st.models name).isSome

/-- `ModelRegistry::unload_model`: `remove` on the models map; when a model
was present its info entry is removed too, otherwise ModelNotFound. -/
def unload_model {Model MInfo : Type} (st : RegistryState Model MInfo)
    (name : String) :
    Except EmbeddingError Unit × RegistryState Model MInfo :=
  let removed := st.models name
  let models' : String → Option Model :=
    fun n => if n = name then none else st.models n
  match removed with
  | some _ =>
    (.ok (),
     { models := models',
       model_infos := fun n => if n = name then none else st.model_infos n })
  | none => (.error (.ModelNotFound name), { st with models := models' })

/-- `ModelRegistry::shutdown_all`: clear both maps, always succeeding. -/
def shutdown_all {Model MInfo : Type} (_st : RegistryState Model MInfo) :
    Except EmbeddingError Unit × RegistryState Model MInfo :=
  (.ok (), RegistryState.empty)

/-- Claim C7: after a successful `load_model d`, `get_model d.name` returns
the freshly initialized model and `is_model_loaded d.name` is true; after a
successful `unload_model name`, `get_model name` is none and
`is_model_loaded name` is false. -/
theorem C7_registry_lifecycle {Model MInfo : Type}
    (init : ModelConfig → Except EmbeddingError (Model × MInfo))
    (st : RegistryState Model MInfo) (d : ModelConfig) (name : String) :
    ((load_model init st d).1 = .ok () →
      ∃ model info, init d = .ok (model, info) ∧
        get_model (load_model init st d).2 d.name = some model ∧
        is_model_loaded (load_model init st d).2 d.name = true) ∧
    ((unload_model st name).1 = .ok () →
      get_model (unload_model st name).2 name = none ∧
      is_model_loaded (unload_model st name).2 name = false) := by
  constructor
  · intro hok
    unfold load_model at hok ⊢
    cases hinit : init d with
    | error e =>
      rw [hinit] at hok
      simp at hok
    | ok p =>
      obtain ⟨model, info⟩ := p
      dsimp only
      refine ⟨model, info, rfl, ?_, ?_⟩
      · simp [get_model]
      · simp [is_model_loaded]
  · intro hok
    unfold unload_model at hok ⊢
    cases hrm : st.models name with
    | none =>
      rw [hrm] at hok
      simp at hok
    | some m =>
      dsimp only
      constructor
      · simp [get_model]
      · simp [is_model_loaded]

/-- A concrete model configuration for registry witnesses. -/
def cfgM : ModelConfig :=
  ⟨"m", "d", "1", true, "p", "t", "c", 256, 384, "mean", 16, false, 4, "r", "CPU"⟩

/-- A concrete always-succeeding initializer. -/
def initU : ModelConfig → Except EmbeddingError (Unit × Unit) :=
  fun _ => .ok ((), ())

/-- A concrete registry holding one model named "m". -/
def stM : RegistryState Unit Unit :=
  ⟨fun n => if n = "m" then some () else none,
   fun n => if n = "m" then some () else none⟩

/-- Witness for C7: the lifecycle theorem applied to a concrete load into
the empty registry and a concrete unload of a present model. -/
theorem C7_registry_lifecycle_witness :
    (∃ model info, initU cfgM = .ok (model, info) ∧
      get_model (load_model initU RegistryState.empty cfgM).2 cfgM.name = some model ∧
      is_model_loaded (load_model initU RegistryState.empty cfgM).2 cfgM.name = true) ∧
    (get_model (unload_model stM "m").2 "m" = none ∧
      is_model_loaded (unload_model stM "m").2 "m" = false) :=
  ⟨(C7_registry_lifecycle initU RegistryState.empty cfgM "m").1 rfl,
   (C7_registry_lifecycle initU stM cfgM "m").2 (by decide)⟩

/-- Claim C10: unloading a name that is not loaded returns ModelNotFound
naming that model and leaves the registry state (both maps) unchanged. -/
theorem C10_unload_absent {Model MInfo : Type}
    (st : RegistryState Model MInfo) (name : String)
    (habs : st.models name = none) :
    unload_model st name = (.error (.ModelNotFound name), st) := by
  unfold unload_model
  rw [habs]
  dsimp only
  have hmap : (fun n => if n = name then none else st.models n) = st.models := by
    funext n
    by_cases h : n = name
    · rw [if_pos h, h, habs]
    · rw [if_neg h]
  rw [hmap]

/-- Witness for C10: unloading from the empty registry. -/
theorem C10_unload_absent_witness :
    ((RegistryState.empty : RegistryState Unit Unit).models "ghost" = none) ∧
    unload_model (RegistryState.empty : RegistryState Unit Unit) "ghost" =
      (.error (.ModelNotFound "ghost"), RegistryState.empty) :=
  ⟨rfl, C10_unload_absent RegistryState.empty "ghost" rfl⟩

/-! ## Accept loop and connection limiting (src/server/server.rs)

The `tokio::sync::Semaphore` with `max_connections` permits becomes a
counter; each spawned handler owns one permit, released exactly when the
handler ends (`drop(permit)` after `handle_connection` returns). -/

/-- The concurrency-relevant server state: the configured ceiling, the
permits currently available in the semaphore, and the handler tasks
currently open. -/
structure ServerState where
  max_connections : Nat
  available_permits : Nat
  open_handlers : Nat
deriving DecidableEq, Repr

/-- What the accept loop does with one accepted socket. -/
inductive AcceptOutcome where
  | spawned
  | rejected
deriving DecidableEq, Repr

/-- One accepted connection: `try_acquire_owned` either takes a permit and
spawns the handler, or fails and the connection is dropped immediately
(`continue`) — it is never queued. -/
def accept_connection (s : ServerState) : AcceptOutcome × ServerState :=
  if s.available_permits = 0 then (.rejected, s)
  else (.spawned, { s with available_permits := s.available_permits - 1,
                           open_handlers := s.open_handlers + 1 })

/-- A handler task ending: `drop(permit)` returns the permit. -/
def handler_finished (s : ServerState) : ServerState :=
  if s.open_handlers = 0 then s
  else { s with available_permits := s.available_permits + 1,
                open_handlers := s.open_handlers - 1 }

/-- The interleaving events the accept loop and handlers generate. -/
inductive ServerEvent where
  | accept
  | finish
deriving DecidableEq, Repr

/-- One step of the server's concurrency state machine. -/
def server_step (s : ServerState) : ServerEvent → ServerState
  | .accept => (accept_connection s).2
  | .finish => handler_finished s

/-- Running the state machine over an event trace. -/
def server_run (s : ServerState) : List ServerEvent → ServerState
  | [] => s
  | e :: es => server_run (server_step s e) es

/-- The server's start state: a fresh semaphore holding all
`max_connections` permits and no handlers. -/
def initial_server_state (max_connections : Nat) : ServerState :=
  ⟨max_connections, max_connections, 0⟩

/-- The permit-accounting invariant: every open handler owns exactly one
permit, so available permits and open handlers always sum to the ceiling. -/
def permits_inv (s : ServerState) : Prop :=
  s.available_permits + s.open_handlers = s.max_connections

theorem server_step_inv (s : ServerState) (e : ServerEvent)
    (h : permits_inv s) : permits_inv (server_step s e) := by
  cases e with
  | accept =>
    unfold server_step accept_connection
    by_cases h0 : s.available_permits = 0
    · rw [if_pos h0]
      exact h
    · rw [if_neg h0]
      unfold permits_inv at h ⊢
      dsimp only
      omega
  | finish =>
    unfold server_step handler_finished
    by_cases h0 : s.open_handlers = 0
    · rw [if_pos h0]
      exact h
    · rw [if_neg h0]
      unfold permits_inv at h ⊢
      dsimp only
      omega

theorem server_run_inv (evs : List ServerEvent) (s : ServerState)
    (h : permits_inv s) : permits_inv (server_run s evs) := by
  induction evs generalizing s with
  | nil => exact h
  | cons e es ih => exact ih (server_step s e) (server_step_inv s e h)

theorem server_run_max (evs : List ServerEvent) (s : ServerState)
    (h : permits_inv s) :
    (server_run s evs).max_connections = s.max_connections := by
  induction evs generalizing s with
  | nil => rfl
  | cons e es ih =>
    rw [server_run]
    rw [ih (server_step s e) (server_step_inv s e h)]
    cases e with
    | accept =>
      unfold server_step accept_connection
      by_cases h0 : s.available_permits = 0
      · rw [if_pos h0]
      · rw [if_neg h0]
    | finish =>
      unfold server_step handler_finished
      by_cases h0 : s.open_handlers = 0
      · rw [if_pos h0]
      · rw [if_neg h0]

/-- Claim C6: under any interleaving of accepted connections and handler
completions, the number of open handler tasks never exceeds the configured
`max_connections`; and when no permit is available, an accepted connection
is rejected on the spot — the state is unchanged and no handler spawns. -/
theorem C6_bounded_connections (max_connections : Nat)
    (evs : List ServerEvent) :
    (server_run (initial_server_state max_connections) evs).open_handlers ≤
      max_connections ∧
    (∀ s : ServerState, s.available_permits = 0 →
      accept_connection s = (.rejected, s)) := by
  constructor
  · have hinv : permits_inv (server_run (initial_server_state max_connections) evs) :=
      server_run_inv evs _ rfl
    have hmax : (server_run (initial_server_state max_connections) evs).max_connections =
        max_connections := server_run_max evs _ rfl
    unfold permits_inv at hinv
    omega
  · intro s h0
    unfold accept_connection
    rw [if_pos h0]

/-- Witness for C6: a ceiling of one permit, with two connections accepted
before the first handler finishes — the second is rejected and at most one
handler is ever open. -/
theorem C6_bounded_connections_witness :
    (server_run (initial_server_state 1) [.accept, .accept]).open_handlers ≤ 1 ∧
    accept_connection ⟨1, 0, 1⟩ = (.rejected, ⟨1, 0, 1⟩) :=
  ⟨(C6_bounded_connections 1 [.accept, .accept]).1,
   (C6_bounded_connections 1 []).2 ⟨1, 0, 1⟩ rfl⟩

/-! ## Engine construction failures (src/onnx/onnx_engine.rs,
src/models/model.rs) -/

/-- The error mapping of `OnnxEmbeddingEngine::new_with_config`: a session
`commit_from_file` failure and a `Tokenizer::from_file` failure are both
wrapped into `ModelLoadFailed` with a prefixed cause string — the failing
model's name is not attached.  The session and tokenizer loads themselves
are opaque collaborators. -/
def onnx_new_with_config (session_commit tokenizer_from_file : Except String Unit) :
    Except EmbeddingError Unit :=
  match session_commit with
  | .error e => .error (.ModelLoadFailed ("Failed to load ONNX model: " ++ e))
  | .ok _ =>
    match tokenizer_from_file with
    | .error e => .error (.ModelLoadFailed ("Failed to load tokenizer: " ++ e))
    | .ok _ => .ok ()

/-- `OnnxEmbeddingModel::initialize` composed with `info()`, as the registry
initializer: the engine and info values are abstracted to `Unit`. -/
def onnx_init (session_commit tokenizer_from_file : Except String Unit) :
    ModelConfig → Except EmbeddingError (Unit × Unit) :=
  fun _ => (onnx_new_with_config session_commit tokenizer_from_file).map
    (fun u => (u, ()))

/-- The model name structurally carried by an `EmbeddingError`, per the
fields of src/models/mod.rs (only ModelNotFound, ModelLoadError and
InferenceError have a `model_name` field). -/
def error_model_name : EmbeddingError → Option String
  | .ModelNotFound n => some n
  | .ModelLoadError n _ => some n
  | .InferenceError n _ => some n
  | _ => none

/-- The display string of each `EmbeddingError` variant, from the
`#[error(..)]` attributes in src/models/mod.rs. -/
def render_error : EmbeddingError → String
  | .ConfigError m => "Configuration error: " ++ m
  | .ModelNotFound n => "Model not found: " ++ n
  | .ModelLoadError n e => "Model loading failed: " ++ n ++ " - " ++ e
  | .ModelLoadFailed e => "Model load failed: " ++ e
  | .InferenceError n e => "Inference failed: " ++ n ++ " - " ++ e
  | .EmbeddingFailed e => "Embedding failed: " ++ e
  | .InvalidInput m => "Invalid input: " ++ m
  | .IoError e => "IO error: " ++ e
  | .TomlError e => "TOML parsing error: " ++ e

/-- Whether `needle` occurs as a contiguous substring of `hay`. -/
def hasSubstring (needle : List Char) : List Char → Bool
  | [] => needle.isEmpty
  | c :: rest => needle.isPrefixOf (c :: rest) || hasSubstring needle rest

/-- A concrete model configuration named "my-model". -/
def cfgMy : ModelConfig :=
  ⟨"my-model", "d", "1", true, "p.onnx", "t.json", "c.json", 256, 384, "mean",
   16, false, 4, "rt", "CPU"⟩

/-- Claim C8 counterexample: a load whose tokenizer load fails (cause
"io error") for the model named "my-model" returns a `ModelLoadFailed`
error that carries no model-name field, and whose rendered message does
not mention the failing model's name — the claim's "reports the failing
model's name" is false.  (The registry is indeed left unchanged.) -/
theorem C8_counterexample :
    (load_model (onnx_init (.ok ()) (.error "io error"))
        (RegistryState.empty : RegistryState Unit Unit) cfgMy).1 =
      .error (.ModelLoadFailed "Failed to load tokenizer: io error") ∧
    error_model_name (.ModelLoadFailed "Failed to load tokenizer: io error") = none ∧
    hasSubstring cfgMy.name.toList
      (render_error (.ModelLoadFailed "Failed to load tokenizer: io error")).toList =
      false ∧
    (load_model (onnx_init (.ok ()) (.error "io error"))
        (RegistryState.empty : RegistryState Unit Unit) cfgMy).2 =
      RegistryState.empty := by
  refine ⟨rfl, rfl, by decide, rfl⟩

/-- Claim C8 (amended): when initialization fails, `load_model` returns the
initializer's error and leaves the registry state (both maps) exactly
unchanged — no partial entries; the error reports the cause (for the ONNX
engine, a `ModelLoadFailed` whose message prefixes the failing step), but
not the failing model's name, which no engine-level error variant carries. -/
theorem C8_load_failure_no_partial {Model MInfo : Type}
    (init : ModelConfig → Except EmbeddingError (Model × MInfo))
    (st : RegistryState Model MInfo) (cfg : ModelConfig) (e : EmbeddingError) :
    (init cfg = .error e → load_model init st cfg = (.error e, st)) ∧
    (∀ s, onnx_new_with_config (.error s) (.ok ()) =
        .error (.ModelLoadFailed ("Failed to load ONNX model: " ++ s))) ∧
    (∀ s, onnx_new_with_config (.ok ()) (.error s) =
        .error (.ModelLoadFailed ("Failed to load tokenizer: " ++ s))) ∧
    (∀ s, error_model_name (.ModelLoadFailed s) = none) := by
  refine ⟨?_, fun s => rfl, fun s => rfl, fun s => rfl⟩
  intro hfail
  unfold load_model
  rw [hfail]

/-- Witness for C8 (amended): the concrete failing tokenizer load against
the empty registry. -/
theorem C8_load_failure_no_partial_witness :
    load_model (onnx_init (.ok ()) (.error "io error"))
        (RegistryState.empty : RegistryState Unit Unit) cfgMy =
      (.error (.ModelLoadFailed "Failed to load tokenizer: io error"),
       RegistryState.empty) ∧
    onnx_new_with_config (.error "gone") (.ok ()) =
      .error (.ModelLoadFailed ("Failed to load ONNX model: " ++ "gone")) ∧
    onnx_new_with_config (.ok ()) (.error "gone") =
      .error (.ModelLoadFailed ("Failed to load tokenizer: " ++ "gone")) ∧
    error_model_name (.ModelLoadFailed "Failed to load tokenizer: io error") = none := by
  have h := C8_load_failure_no_partial
    (onnx_init (.ok ()) (.error "io error"))
    (RegistryState.empty : RegistryState Unit Unit) cfgMy
    (.ModelLoadFailed "Failed to load tokenizer: io error")
  exact ⟨h.1 rfl, h.2.1 "gone", h.2.2.1 "gone",
    h.2.2.2 "Failed to load tokenizer: io error"⟩

/-! ## Model manager (src/models/manager.rs, src/models/config.rs)

The `HashMap<String, ModelConfig>` becomes an association list (iteration
order abstracted as list order); only the fields the modelled operations
read are carried. -/

/-- The `[global]` section of the configuration. -/
structure GlobalConfig where
  default_model : String
  max_batch_size : Nat
  cache_enabled : Bool
  cache_size_mb : Nat
  init_timeout : Nat
  inference_timeout : Nat
deriving DecidableEq, Repr

/-- The four configured model groups. -/
structure ModelGroups where
  general : List String
  multilingual : List String
  high_dim : List String
  gpu_models : List String
deriving DecidableEq, Repr

/-- `EmbeddingModelsConfig`: global settings, the keyed model configs, and
the groups. -/
structure EmbeddingModelsConfig where
  global : GlobalConfig
  models : List (String × ModelConfig)
  model_groups : ModelGroups
deriving DecidableEq, Repr

/-- `EmbeddingModelsConfig::validate`: the default model must exist (by its
`name` field, over map values), be enabled, and every group member must be
a key of the models map. -/
def validate (c : EmbeddingModelsConfig) : Except EmbeddingError Unit :=
  if ¬ (c.models.map Prod.snd).any (fun m => m.name == c.global.default_model) then
    .error (.ConfigError ("Default model not found in models: " ++
      c.global.default_model))
  else
    match (c.models.map Prod.snd).find? (fun m => m.name == c.global.default_model) with
    | some default_model =>
      if ¬ default_model.enabled then
        .error (.ConfigError ("Default model is not enabled: " ++
          c.global.default_model))
      else validate_groups c
    | none => validate_groups c
where
  validate_groups (c : EmbeddingModelsConfig) : Except EmbeddingError Unit :=
    if (c.model_groups.general ++ c.model_groups.multilingual ++
        c.model_groups.high_dim ++ c.model_groups.gpu_models).all
          (fun n => c.models.any (fun p => p.1 == n)) then
      .ok ()
    else
      .error (.ConfigError "Model in group not found in models")

/-- `ModelRegistry::load_from_config`: load every enabled model in
configuration order, aborting at the first failure. -/
def load_from_config_loop {Model MInfo : Type}
    (init : ModelConfig → Except EmbeddingError (Model × MInfo))
    (st : RegistryState Model MInfo) :
    List (String × ModelConfig) →
      Except EmbeddingError Unit × RegistryState Model MInfo
  | [] => (.ok (), st)
  | (_, mc) :: rest =>
    if mc.enabled then
      match load_model init st mc with
      | (.error e, st') => (.error e, st')
      | (.ok _, st') => load_from_config_loop init st' rest
    else load_from_config_loop init st rest

/-- `EmbeddingModelsManager`: its configuration and its registry. -/
structure ManagerState (Model MInfo : Type) where
  config : EmbeddingModelsConfig
  registry : RegistryState Model MInfo

/-- `EmbeddingModelsManager::reload_config`: parse the new file (opaque,
passed as its result), validate it, and only then shut all models down,
install the new config and re-initialize from it; a partial
re-initialization failure leaves exactly the models loaded so far. -/
def reload_config {Model MInfo : Type}
    (init : ModelConfig → Except EmbeddingError (Model × MInfo))
    (parsed : Except EmbeddingError EmbeddingModelsConfig)
    (ms : ManagerState Model MInfo) :
    Except EmbeddingError Unit × ManagerState Model MInfo :=
  match parsed with
  | .error e => (.error e, ms)
  | .ok new_config =>
    match validate new_config with
    | .error e => (.error e, ms)
    | .ok _ =>
      let cleared := (shutdown_all ms.registry).2
      let loaded := load_from_config_loop init cleared new_config.models
      (loaded.1, ⟨new_config, loaded.2⟩)

/-- A manager currently holding one loaded model named "m0". -/
def msOld : ManagerState Unit Unit :=
  ⟨⟨⟨"m0", 32, true, 512, 300, 60⟩,
    [("m0", ⟨"m0", "d", "1", true, "p", "t", "c", 256, 384, "mean", 16, false, 4, "r", "CPU"⟩)],
    ⟨[], [], [], []⟩⟩,
   ⟨fun n => if n = "m0" then some () else none,
    fun n => if n = "m0" then some () else none⟩⟩

/-- A new configuration that fails validation: its default model "missing"
names no configured model. -/
def cfgBad : EmbeddingModelsConfig :=
  ⟨⟨"missing", 32, true, 512, 300, 60⟩, [], ⟨[], [], [], []⟩⟩

/-- Claim C9 counterexample: reloading with a configuration that fails
validation returns the validation error while the previously loaded model
"m0" is still loaded — nothing was shut down, so the shutdown does NOT
happen before validation as the claim states. -/
theorem C9_counterexample :
    reload_config initU (.ok cfgBad) msOld =
      (.error (.ConfigError ("Default model not found in models: missing")),
       msOld) ∧
    is_model_loaded (reload_config initU (.ok cfgBad) msOld).2.registry "m0" =
      true := by
  refine ⟨?_, by decide⟩
  rfl

/-- Claim C9 (amended): `reload_config` first parses and validates the new
configuration, leaving the manager untouched when either fails; only on
successful validation does it shut down all loaded models and re-initialize
from the new configuration starting from an empty registry — so when
re-initialization fails partway, previously loaded models are not restored
and the registry holds exactly the new-config models loaded before the
failure point. -/
theorem C9_reload_fail_forward {Model MInfo : Type}
    (init : ModelConfig → Except EmbeddingError (Model × MInfo))
    (parsed : Except EmbeddingError EmbeddingModelsConfig)
    (ms : ManagerState Model MInfo) :
    (∀ e, parsed = .error e → reload_config init parsed ms = (.error e, ms)) ∧
    (∀ c e, parsed = .ok c → validate c = .error e →
      reload_config init parsed ms = (.error e, ms)) ∧
    (∀ c, parsed = .ok c → validate c = .ok () →
      reload_config init parsed ms =
        ((load_from_config_loop init RegistryState.empty c.models).1,
         ⟨c, (load_from_config_loop init RegistryState.empty c.models).2⟩)) := by
  refine ⟨?_, ?_, ?_⟩
  · intro e hp
    subst hp
    rfl
  · intro c e hp hv
    subst hp
    unfold reload_config
    dsimp only
    rw [hv]
  · intro c hp hv
    subst hp
    unfold reload_config
    dsimp only
    rw [hv]
    rfl

/-- A configuration whose single model is enabled and is the default. -/
def cfgGood : EmbeddingModelsConfig :=
  ⟨⟨"m", 32, true, 512, 300, 60⟩, [("m", cfgM)], ⟨[], [], [], []⟩⟩

/-- Witness for C9 (amended): a failing parse, a failing validation, and a
successful reload, each at concrete inputs. -/
theorem C9_reload_fail_forward_witness :
    reload_config initU (.error (.IoError "no such file")) msOld =
      (.error (.IoError "no such file"), msOld) ∧
    reload_config initU (.ok cfgBad) msOld =
      (.error (.ConfigError ("Default model not found in models: missing")), msOld) ∧
    reload_config initU (.ok cfgGood) msOld =
      ((load_from_config_loop initU RegistryState.empty cfgGood.models).1,
       ⟨cfgGood, (load_from_config_loop initU RegistryState.empty cfgGood.models).2⟩) := by
  refine ⟨?_, ?_, ?_⟩
  · exact (C9_reload_fail_forward initU (.error (.IoError "no such file")) msOld).1
      (.IoError "no such file") rfl
  · exact (C9_reload_fail_forward initU (.ok cfgBad) msOld).2.1 cfgBad
      (.ConfigError ("Default model not found in models: missing")) rfl (by decide)
  · exact (C9_reload_fail_forward initU (.ok cfgGood) msOld).2.2 cfgGood rfl
      (by decide)

end EmbeddingServer
